import Mathlib

/-!
Verification of the job-orchestration and speed-estimation subsystem of a
local audiobook server (single source file `app.py`).

The embedding below translates the relevant Python functions into Lean:

* `get_whisper_capabilities_cached` — the capability probe.  A run of
  `whisper --help` is modelled by `Option RunResult`: `none` is the
  exception path (tool missing / timeout raising inside `subprocess.run`),
  `some r` is a completed run with captured stdout/stderr and exit code.
* the job registry `_jobs` — a Python dict from `(book, mp3)` to a process
  handle, modelled as `Registry := String × String → Option Nat`;
  registration (`_jobs[(book, mp3)] = proc`) and removal
  (`_jobs.pop((book, mp3), None)`) are `registerJob` / `unregisterJob`.
* `whisper_stream` — the streaming generator, split into the emitted
  chunk list (`whisperStreamOut`) and its effect on the registry
  (`whisperStreamReg`).  The deterministic environment of one invocation
  (file existence, cached capabilities, tool behaviour, artifact checks)
  is a `StreamEnv`; the tool behaviour covers the normal run, an
  exception raised by `subprocess.Popen` itself (before registration) and
  an exception raised while streaming (after registration).
* `whisper_stream_parallel` — output modelled over an arbitrary
  completion order of the submitted items (`as_completed` order), each
  item either returning its buffered tagged lines or raising.
* `test_whisper_speed` — the speed benchmark; floats are modelled as `ℚ`.
* `get_speed_test_key`, `save_speed_ratio_data`,
  `load_saved_speed_ratios` — speed-ratio persistence; the flat JSON file
  holds the entire mapping, modelled as `String → Option SpeedRecord`.

Filesystem paths are modelled as strings joined with `/`, with the books
directory rendered as `books` (the absolute base directory does not
affect any claim).
-/

/-- Characters stripped by Python `str.rstrip()` (ASCII whitespace). -/
def isPySpace (c : Char) : Bool :=
  c = ' ' || c = '\t' || c = '\n' || c = '\r' || c = '\x0B' || c = '\x0C'

/-- Python `line.rstrip()`: remove trailing whitespace. -/
def rstrip (s : String) : String :=
  String.mk ((s.data.reverse.dropWhile isPySpace).reverse)

/-- Python substring test `needle in hay` on character lists. -/
def containsSub (needle : List Char) : List Char → Bool
  | [] => needle.isEmpty
  | c :: cs => needle.isPrefixOf (c :: cs) || containsSub needle cs

/-- Python `needle in hay` for strings. -/
def containsStr (hay needle : String) : Bool :=
  containsSub needle.data hay.data

/-- Result of the dict returned by `get_whisper_capabilities_cached`. -/
structure Capabilities where
  word_timestamps_available : Bool
  highlight_words_available : Bool
  installed : Bool
deriving DecidableEq, Repr

/-- A completed `subprocess.run` of `whisper --help`. -/
structure RunResult where
  stdout : String
  stderr : String
  returncode : Int
deriving DecidableEq, Repr

/-- `get_whisper_capabilities_cached` (app.py lines 50-69).  `none` models
the exception path (`FileNotFoundError`, `TimeoutExpired`, ...); `some r`
a completed run.  On a completed run the help text is `stdout + stderr`,
the feature flags are substring tests on it, and `installed` is
`returncode == 0`.  On exception all three fields are `False`. -/
def get_whisper_capabilities_cached (probe : Option RunResult) : Capabilities :=
  match probe with
  | some r =>
    let help_text := r.stdout ++ r.stderr
    { word_timestamps_available := containsStr help_text "--word_timestamps"
      highlight_words_available := containsStr help_text "--highlight_words"
      installed := r.returncode == 0 }
  | none =>
    { word_timestamps_available := false
      highlight_words_available := false
      installed := false }

/-- The `_jobs` dict: `(book, mp3)` to an opaque process handle. -/
def Registry : Type := String × String → Option Nat

/-- `_jobs[(book, mp3)] = proc` under `_lock` (app.py lines 281-282). -/
def registerJob (key : String × String) (handle : Nat) (reg : Registry) : Registry :=
  fun k => if k = key then some handle else reg k

/-- `_jobs.pop((book, mp3), None)` under `_lock` (app.py lines 294-295, 313-314). -/
def unregisterJob (key : String × String) (reg : Registry) : Registry :=
  fun k => if k = key then none else reg k

/-- `job_running` (app.py lines 81-83). -/
def job_running (book mp3 : String) (reg : Registry) : Bool :=
  (reg (book, mp3)).isSome

/-- Default transcription model (app.py line 42). -/
def MODEL : String := "medium"

/-- Rendering of `BOOKS / book` (app.py line 249). -/
def folderOf (book : String) : String := "books/" ++ book

/-- Rendering of `folder / mp3` (app.py line 250). -/
def mp3PathOf (book mp3 : String) : String := folderOf book ++ "/" ++ mp3

/-- `Path(mp3).with_suffix(".vtt")`: replace the last extension, or append
`.vtt` when there is none. -/
def withSuffixVtt (mp3 : String) : String :=
  let cs := mp3.data
  let stem := if cs.contains '.' then ((cs.reverse.dropWhile (fun c => c ≠ '.')).drop 1).reverse else cs
  String.mk (stem ++ ['.', 'v', 't', 't'])

/-- `caption_path` (app.py lines 77-79). -/
def caption_path (book mp3 : String) : String :=
  folderOf book ++ "/" ++ withSuffixVtt mp3

/-- The fixed part of the whisper command (app.py lines 258-264). -/
def whisperBase (book mp3 : String) : List String :=
  ["whisper", mp3PathOf book mp3,
   "--model", MODEL,
   "--output_format", "vtt",
   "--output_dir", folderOf book,
   "--fp16", "False"]

/-- The full whisper command (app.py lines 258-271).  Note the highlight
flag is appended inside the word-timestamps branch, exactly as in the
source. -/
def whisperCmd (book mp3 : String) (wt hl : Bool) (caps : Capabilities) : List String :=
  whisperBase book mp3 ++
    (if wt && caps.word_timestamps_available then
      ["--word_timestamps", "True"] ++
        (if hl && caps.highlight_words_available then ["--highlight_words", "True"] else [])
    else [])

/-- Behaviour of the external tool during one `whisper_stream` run:
`popenRaises` models `subprocess.Popen` itself raising (before the job is
registered); `raisesDuring pre msg` models an exception raised while
streaming after the raw lines `pre` were read (after registration);
`runs lines rc` a tool process that emits `lines` and exits with `rc`. -/
inductive ToolBehavior where
  | popenRaises (msg : String)
  | raisesDuring (pre : List String) (msg : String)
  | runs (lines : List String) (returncode : Int)
deriving DecidableEq, Repr

/-- Deterministic environment of one `whisper_stream` invocation. -/
structure StreamEnv where
  mp3Exists : Bool
  caps : Capabilities
  behavior : ToolBehavior
  procHandle : Nat
  vttExists : Bool
  hasWords : Bool
deriving DecidableEq, Repr

/-- The streaming loop over the tool's stdout (app.py lines 285-291):
each raw line is `rstrip`ped, empty results are skipped, surviving lines
are yielded with a newline re-appended. -/
def streamToolLines : List String → List String
  | [] => []
  | line :: rest =>
    let l := rstrip line
    if l = "" then streamToolLines rest else (l ++ "\n") :: streamToolLines rest

/-- The four header chunks yielded before the tool starts
(app.py lines 273-276). -/
def whisperHeader (book mp3 : String) (wt hl : Bool) (caps : Capabilities) : List String :=
  ["Starting Whisper transcription for: " ++ mp3 ++ "\n",
   "Command: " ++ String.intercalate " " (whisperCmd book mp3 wt hl caps) ++ "\n",
   "Word timestamps: " ++ (if wt && caps.word_timestamps_available then "enabled" else "disabled") ++ "\n",
   "Word highlighting: " ++ (if hl && caps.highlight_words_available then "enabled" else "disabled") ++ "\n\n"]

/-- The chunks yielded after the tool exits (app.py lines 297-309): the
VTT existence check and the final status line. -/
def whisperTrailer (book mp3 : String) (env : StreamEnv) (rc : Int) : List String :=
  (if env.vttExists then
    ["\nSUCCESS: VTT file created at " ++ caption_path book mp3 ++ "\n",
     "Word-level timestamps: " ++ (if env.hasWords then "Yes" else "No") ++ "\n"]
   else
    ["\nWARNING: Expected VTT file not found at " ++ caption_path book mp3 ++ "\n"]) ++
  (if rc ≠ 0 then
    ["\nERROR: Whisper process failed with exit code " ++ toString rc ++ "\n"]
   else
    ["\n[DONE " ++ mp3 ++ " - SUCCESS]\n"])

/-- The chunk sequence produced by `whisper_stream` (app.py lines 248-314). -/
def whisperStreamOut (book mp3 : String) (wt hl : Bool) (env : StreamEnv) : List String :=
  if !env.mp3Exists then
    ["Error: MP3 file not found: " ++ mp3PathOf book mp3 ++ "\n"]
  else
    whisperHeader book mp3 wt hl env.caps ++
    match env.behavior with
    | .popenRaises msg => ["\nEXCEPTION: " ++ msg ++ "\n"]
    | .raisesDuring pre msg => streamToolLines pre ++ ["\nEXCEPTION: " ++ msg ++ "\n"]
    | .runs lines rc => streamToolLines lines ++ whisperTrailer book mp3 env rc

/-- The effect of one `whisper_stream` invocation on the `_jobs` registry
(app.py lines 278-314): no touch when the file is missing; registration
after a successful `Popen` followed by a pop on the normal path, and a pop
in the `except` clause on every exception path. -/
def whisperStreamReg (book mp3 : String) (env : StreamEnv) (reg : Registry) : Registry :=
  if !env.mp3Exists then reg
  else
    match env.behavior with
    | .popenRaises _ => unregisterJob (book, mp3) reg
    | .raisesDuring _ _ => unregisterJob (book, mp3) (registerJob (book, mp3) env.procHandle reg)
    | .runs _ _ => unregisterJob (book, mp3) (registerJob (book, mp3) env.procHandle reg)

/-- `whisper_stream`: emitted chunks together with the registry effect. -/
def whisper_stream (book mp3 : String) (wt hl : Bool) (env : StreamEnv) (reg : Registry) :
    List String × Registry :=
  (whisperStreamOut book mp3 wt hl env, whisperStreamReg book mp3 env reg)

/-- Completion banner of the parallel scheduler (app.py line 336). -/
def compBanner (mp3 : String) : String := "\n=== COMPLETED: " ++ mp3 ++ " ===\n"

/-- Error banner of the parallel scheduler (app.py line 341). -/
def errBanner (mp3 : String) : String := "\n=== ERROR: " ++ mp3 ++ " ===\n"

/-- End banner of a successful item (app.py line 339). -/
def endBanner (mp3 : String) : String := "=== END: " ++ mp3 ++ " ===\n\n"

/-- End banner of a failed item (app.py line 343). -/
def endErrBanner (mp3 : String) : String := "=== END ERROR: " ++ mp3 ++ " ===\n\n"

/-- Exception text line of a failed item (app.py line 342). -/
def excText (msg : String) : String := "Exception: " ++ msg ++ "\n"

/-- Item tag applied by `transcribe_single` (app.py line 324). -/
def tagLine (mp3 line : String) : String := "[" ++ mp3 ++ "] " ++ line

/-- `transcribe_single` (app.py lines 320-325): drain `whisper_stream`
with its DEFAULT feature flags (both `True`) and tag every line. -/
def transcribe_single (book mp3 : String) (envOf : String → StreamEnv) : List String :=
  (whisperStreamOut book mp3 true true (envOf mp3)).map (tagLine mp3)

/-- Lines yielded for one completed future (app.py lines 332-343):
`raisesOf mp3 = some msg` models `future.result()` raising. -/
def parallelBlock (book mp3 : String) (envOf : String → StreamEnv)
    (raisesOf : String → Option String) : List String :=
  match raisesOf mp3 with
  | some msg => [errBanner mp3, excText msg, endErrBanner mp3]
  | none => compBanner mp3 :: transcribe_single book mp3 envOf ++ [endBanner mp3]

/-- Opening line of `whisper_stream_parallel` (app.py line 318). -/
def parallelHeader (nFiles maxWorkers : Nat) : String :=
  "Starting parallel transcription of " ++ toString nFiles ++ " files with "
    ++ toString maxWorkers ++ " workers\n\n"

/-- The chunk sequence produced by `whisper_stream_parallel`
(app.py lines 316-343): the header followed by one block per completed
item.  `order` is the `as_completed` completion order of the submitted
items, an arbitrary permutation of `mp3Files`. -/
def whisper_stream_parallel (book : String) (mp3Files : List String) (maxWorkers : Nat)
    (envOf : String → StreamEnv) (raisesOf : String → Option String)
    (order : List String) : List String :=
  parallelHeader mp3Files.length maxWorkers
    :: (order.map (fun mp3 => parallelBlock book mp3 envOf raisesOf)).flatten

/-- Result dict of `test_whisper_speed` (app.py lines 189-245),
restricted to the fields the claims mention; floats are `ℚ`. -/
structure SpeedTestResult where
  success : Bool
  processing_time : ℚ
  audio_duration : ℚ
  speed_ratio : ℚ
  model_tested : String
  errorText : Option String
deriving DecidableEq, Repr

/-- `test_whisper_speed` (app.py lines 189-245).  `timedOut` models
`subprocess.TimeoutExpired`; otherwise `returncode`/`stderrText` describe
the completed run and `processing_time`/`audio_duration` the measured
wall-clock time and probed clip duration.  The ratio is
`audio_duration / processing_time` when both are strictly positive, else
`0` (app.py line 222). -/
def test_whisper_speed (model_to_test : String) (timedOut : Bool) (returncode : Int)
    (stderrText : String) (audio_duration processing_time : ℚ) : SpeedTestResult :=
  if timedOut then
    { success := false
      processing_time := 120
      audio_duration := audio_duration
      speed_ratio := 0
      model_tested := model_to_test
      errorText := some "Transcription speed test timed out" }
  else
    { success := returncode == 0
      processing_time := processing_time
      audio_duration := audio_duration
      speed_ratio := if 0 < audio_duration ∧ 0 < processing_time then audio_duration / processing_time else 0
      model_tested := model_to_test
      errorText := if returncode == 0 then none else some stderrText }

/-- One persisted record of `speed_ratios.json` (app.py lines 446-453). -/
structure SpeedRecord where
  speed_ratio : ℚ
  model_tested : String
  settings_word_timestamps : Bool
  settings_highlighting : Bool
  test_audio_duration : ℚ
  test_processing_time : ℚ
  timestamp : String
deriving DecidableEq, Repr

/-- Contents of the flat backing file: the entire mapping from
configuration key to record. -/
def SpeedStore : Type := String → Option SpeedRecord

/-- `load_saved_speed_ratios` (app.py lines 569-575): a missing or
corrupt backing file (`none`) is treated as the empty mapping. -/
def load_saved_speed_ratios (parsed : Option SpeedStore) : SpeedStore :=
  match parsed with
  | some m => m
  | none => fun _ => none

/-- `save_speed_ratio_data` (app.py lines 577-583): load the entire
current mapping, replace the single key, write the whole mapping back. -/
def save_speed_ratio_data (key : String) (data : SpeedRecord) (store : SpeedStore) : SpeedStore :=
  fun k => if k = key then some data else store k

/-- The lookup performed by the `/api/speed-ratio` route
(app.py lines 387-393): `none` models the 404 NotFound response. -/
def get_speed_ratio_route (key : String) (store : SpeedStore) : Option SpeedRecord :=
  store key

/-- Python `str(bool)` as used by the f-string in `get_speed_test_key`. -/
def pyBoolStr (b : Bool) : String := if b then "True" else "False"

/-- `get_speed_test_key` (app.py lines 559-567):
`f"{model_name}:{word_ts}:{highlight}"`. -/
def get_speed_test_key (model_name : String) (word_ts highlight : Bool) : String :=
  model_name ++ ":" ++ pyBoolStr word_ts ++ ":" ++ pyBoolStr highlight

/-- The `/gen_all` route body (app.py lines 504-527) after the
already-captioned files were filtered out: `files` is
`files_to_process`.  The parallel branch is taken only when requested and
more than one file remains, and does not forward the request's feature
flags; the sequential branch forwards them. -/
def genAllOut (book : String) (files : List String) (parallel : Bool) (maxWorkers : Nat)
    (wt hl : Bool) (envOf : String → StreamEnv) (raisesOf : String → Option String)
    (order : List String) : List String :=
  if files.isEmpty then ["All files already have transcripts\n"]
  else if parallel && decide (1 < files.length) then
    whisper_stream_parallel book files maxWorkers envOf raisesOf order
  else
    (files.map (fun mp3 => ("\n=== " ++ mp3 ++ " ===\n") :: whisperStreamOut book mp3 wt hl (envOf mp3))).flatten

/-! ## Claim C1: duplicate registration -/

/-- Claim C1 counterexample: with the key `("book", "01.mp3")` already
registered with handle `1`, a second registration with handle `2`
succeeds and replaces the existing handle — there is no AlreadyRunning
rejection in the code, which performs a plain dict assignment under the
lock. -/
theorem c1_counterexample :
    registerJob ("book", "01.mp3") 2
        (registerJob ("book", "01.mp3") 1 (fun _ => none)) ("book", "01.mp3") = some 2 ∧
      registerJob ("book", "01.mp3") 2
        (registerJob ("book", "01.mp3") 1 (fun _ => none)) ("book", "01.mp3") ≠ some 1 := by
  constructor
  · rfl
  · decide

/-- Claim C1 amended: registration is an unconditional insert — a second
registration of an already-present key succeeds and replaces the existing
handle (no AlreadyRunning failure exists), while entries under other keys
are untouched. -/
theorem c1_amended (key : String × String) (h1 h2 : Nat) (reg : Registry) :
    registerJob key h2 (registerJob key h1 reg) key = some h2 ∧
      ∀ k, k ≠ key → registerJob key h2 reg k = reg k := by
  constructor
  · simp [registerJob]
  · intro k hk
    simp [registerJob, hk]

/-- Witness for `c1_amended` at a concrete key, handles and registry. -/
theorem c1_amended_witness :
    registerJob ("book", "01.mp3") 2
        (registerJob ("book", "01.mp3") 1 (fun _ => none)) ("book", "01.mp3") = some 2 ∧
      registerJob ("book", "01.mp3") 2 (fun _ => none) ("book", "02.mp3") = none :=
  ⟨(c1_amended ("book", "01.mp3") 1 2 (fun _ => none)).1,
   (c1_amended ("book", "01.mp3") 1 2 (fun _ => none)).2 ("book", "02.mp3") (by decide)⟩

/-! ## Claim C2: the registry entry is always released -/

/-- Claim C2: if the run's key is not registered beforehand, then after
`whisper_stream` terminates the key is not registered, on every modelled
exit path — missing source file (never registered), normal completion
with any exit code, exception from `Popen` before registration, and
exception while streaming after registration. -/
theorem c2_registry_released (book mp3 : String) (wt hl : Bool) (env : StreamEnv)
    (reg : Registry) (h : reg (book, mp3) = none) :
    (whisper_stream book mp3 wt hl env reg).2 (book, mp3) = none := by
  show whisperStreamReg book mp3 env reg (book, mp3) = none
  unfold whisperStreamReg
  cases hex : env.mp3Exists with
  | false => simpa [hex] using h
  | true =>
    cases env.behavior with
    | popenRaises msg => simp [hex, unregisterJob]
    | raisesDuring pre msg => simp [hex, unregisterJob]
    | runs lines rc => simp [hex, unregisterJob]

/-- Witness for `c2_registry_released` on a concrete run that registers
and then hits a streaming exception. -/
theorem c2_registry_released_witness :
    (whisper_stream "book" "01.mp3" true true
      { mp3Exists := true
        caps := ⟨true, true, true⟩
        behavior := .raisesDuring ["one line"] "boom"
        procHandle := 7
        vttExists := false
        hasWords := false }
      (fun _ => none)).2 ("book", "01.mp3") = none :=
  c2_registry_released "book" "01.mp3" true true _ (fun _ => none) rfl

/-! ## Claim C3: capability probe failure behaviour -/

/-- Claim C3 counterexample: a completed `whisper --help` run with a
non-zero exit code whose help text mentions the flags does NOT yield the
all-false capabilities value — the feature flags are still parsed from
the help text and only `installed` is false. -/
theorem c3_counterexample :
    (⟨"usage: whisper [--word_timestamps] [--highlight_words]", "", 2⟩ : RunResult).returncode ≠ 0 ∧
      get_whisper_capabilities_cached
          (some ⟨"usage: whisper [--word_timestamps] [--highlight_words]", "", 2⟩) ≠
        ⟨false, false, false⟩ := by
  constructor
  · decide
  · decide

/-- Claim C3 amended: the probe is total (never raises).  On the
exception path (tool missing, timeout) it returns the all-false value.
On a completed run, `installed` is exactly `returncode == 0`, and the two
feature flags are substring tests on the combined help text regardless of
the exit code — so a non-zero exit gives tool present = false but not
necessarily all-false feature flags. -/
theorem c3_amended :
    get_whisper_capabilities_cached none = ⟨false, false, false⟩ ∧
      ∀ r : RunResult,
        (get_whisper_capabilities_cached (some r)).installed = (r.returncode == 0) ∧
        (get_whisper_capabilities_cached (some r)).word_timestamps_available =
          containsStr (r.stdout ++ r.stderr) "--word_timestamps" ∧
        (get_whisper_capabilities_cached (some r)).highlight_words_available =
          containsStr (r.stdout ++ r.stderr) "--highlight_words" := by
  refine ⟨rfl, fun r => ⟨rfl, rfl, rfl⟩⟩

/-! ## Claim C5: speed ratio arithmetic -/

/-- Claim C5: on a completed (non-timeout) benchmark run the speed ratio
is `audio_duration / processing_time` when both are strictly positive and
`0` otherwise; concretely, duration 10 with processing time 5 gives
ratio 2, and duration 0 or processing time 0 gives ratio 0. -/
theorem c5_speed_ratio (model : String) (rc : Int) (err : String) (d t : ℚ) :
    ((0 < d ∧ 0 < t) → (test_whisper_speed model false rc err d t).speed_ratio = d / t) ∧
      (¬(0 < d ∧ 0 < t) → (test_whisper_speed model false rc err d t).speed_ratio = 0) ∧
      (test_whisper_speed model false rc err 10 5).speed_ratio = 2 ∧
      (test_whisper_speed model false rc err 0 5).speed_ratio = 0 ∧
      (test_whisper_speed model false rc err 10 0).speed_ratio = 0 := by
  refine ⟨fun h => ?_, fun h => ?_, ?_, ?_, ?_⟩
  · simp [test_whisper_speed, h]
  · simp [test_whisper_speed, h]
  · norm_num [test_whisper_speed]
  · norm_num [test_whisper_speed]
  · norm_num [test_whisper_speed]

/-- Witness for `c5_speed_ratio`: the positive branch at duration 10 and
processing time 5. -/
theorem c5_speed_ratio_witness :
    (test_whisper_speed "medium" false 0 "" 10 5).speed_ratio = 10 / 5 :=
  (c5_speed_ratio "medium" 0 "" 10 5).1 (by norm_num)

/-! ## Claim C6: last-write-wins store -/

/-- Claim C6: the store is last-write-wins per key and total on reads —
`put k r1; put k r2; get k` returns `r2`; a read on the empty store (a
missing or corrupt backing file) returns NotFound (`none`); and a put
leaves every other key's record unchanged. -/
theorem c6_store (key : String) (r1 r2 : SpeedRecord) (store : SpeedStore) :
    get_speed_ratio_route key (save_speed_ratio_data key r2 (save_speed_ratio_data key r1 store)) =
        some r2 ∧
      (∀ k, get_speed_ratio_route k (load_saved_speed_ratios none) = none) ∧
      ∀ k, k ≠ key → get_speed_ratio_route k (save_speed_ratio_data key r2 store) =
        get_speed_ratio_route k store := by
  refine ⟨?_, fun k => rfl, fun k hk => ?_⟩
  · simp [get_speed_ratio_route, save_speed_ratio_data]
  · simp [get_speed_ratio_route, save_speed_ratio_data, hk]

/-! ## Claim C8: blank-line suppression -/

lemma rstrip_append_newline (s : String) : rstrip (s ++ "\n") = rstrip s := by
  unfold rstrip
  congr 1
  rw [String.data_append]
  have hnl : ("\n" : String).data = ['\n'] := rfl
  rw [hnl, List.reverse_append]
  simp [List.dropWhile_cons, isPySpace]

lemma rstrip_idem (s : String) : rstrip (rstrip s) = rstrip s := by
  show String.mk (((String.mk ((s.data.reverse.dropWhile isPySpace).reverse)).data.reverse.dropWhile
      isPySpace).reverse) = rstrip s
  rw [show (String.mk ((s.data.reverse.dropWhile isPySpace).reverse)).data =
      (s.data.reverse.dropWhile isPySpace).reverse from rfl]
  rw [List.reverse_reverse, List.dropWhile_idempotent]
  rfl

/-- Claim C8: for every fixed sequence of raw tool-output lines, the
streamed echo is exactly the non-blank lines in their original relative
order (each right-stripped, with a newline re-appended), and every
emitted chunk is non-blank (never empty or whitespace-only). -/
theorem c8_blank_lines (lines : List String) :
    streamToolLines lines =
        (lines.filter (fun l => !(rstrip l == ""))).map (fun l => rstrip l ++ "\n") ∧
      ∀ out, out ∈ streamToolLines lines → rstrip out ≠ "" := by
  induction lines with
  | nil => exact ⟨rfl, fun out h => absurd h (List.not_mem_nil out)⟩
  | cons a rest ih =>
    constructor
    · by_cases h : rstrip a = "" <;> simp [streamToolLines, h, ih.1]
    · intro out hmem
      by_cases h : rstrip a = ""
      · rw [streamToolLines] at hmem
        simp only [h, if_pos rfl] at hmem
        exact ih.2 out hmem
      · rw [streamToolLines] at hmem
        simp only [if_neg h, List.mem_cons] at hmem
        cases hmem with
        | inl he => rw [he, rstrip_append_newline, rstrip_idem]; exact h
        | inr hm => exact ih.2 out hm

/-- Witness for `c8_blank_lines`: the run on `["hello ", "", "   "]`
emits `"hello\n"`, which is non-blank. -/
theorem c8_blank_lines_witness : rstrip "hello\n" ≠ "" :=
  (c8_blank_lines ["hello ", "", "   "]).2 "hello\n" (by decide)

/-! ## Claim C9: configuration key injectivity -/

lemma revColonSplit (t1 : List Char) : ∀ (t2 r1 r2 : List Char), ':' ∉ t1 → ':' ∉ t2 →
    t1 ++ ':' :: r1 = t2 ++ ':' :: r2 → t1 = t2 ∧ r1 = r2 := by
  induction t1 with
  | nil =>
    intro t2 r1 r2 _ h2 h
    cases t2 with
    | nil => simpa using h
    | cons c cs =>
      simp only [List.nil_append, List.cons_append, List.cons.injEq] at h
      have : ':' ∈ c :: cs := by rw [← h.1]; exact List.mem_cons_self _ _
      exact absurd this h2
  | cons a t1 ih =>
    intro t2 r1 r2 h1 h2 h
    cases t2 with
    | nil =>
      simp only [List.nil_append, List.cons_append, List.cons.injEq] at h
      have : ':' ∈ a :: t1 := by rw [← h.1]; exact List.mem_cons_self a t1
      exact absurd this h1
    | cons b t2 =>
      simp only [List.cons_append, List.cons.injEq] at h
      obtain ⟨hab, hrest⟩ := h
      have h1' : ':' ∉ t1 := fun hx => h1 (List.mem_cons_of_mem _ hx)
      have h2' : ':' ∉ t2 := fun hx => h2 (List.mem_cons_of_mem _ hx)
      obtain ⟨ht, hr⟩ := ih t2 r1 r2 h1' h2' hrest
      exact ⟨by rw [hab, ht], hr⟩

lemma get_speed_test_key_rev (m : String) (w h : Bool) :
    (get_speed_test_key m w h).data.reverse =
      (pyBoolStr h).data.reverse ++ ':' ::
        ((pyBoolStr w).data.reverse ++ ':' :: m.data.reverse) := by
  have hc : (":" : String).data = [':'] := rfl
  simp [get_speed_test_key, String.data_append, List.reverse_append, hc]

lemma noColonRev (b : Bool) : ':' ∉ (pyBoolStr b).data.reverse := by
  cases b <;> decide

lemma pyBoolRevInj (b1 b2 : Bool) :
    (pyBoolStr b1).data.reverse = (pyBoolStr b2).data.reverse → b1 = b2 := by
  cases b1 <;> cases b2 <;> intro h <;> first | rfl | exact absurd h (by decide)

/-- Claim C9: the configuration key `f"{model}:{word_ts}:{highlight}"` is
injective — equal keys force equal model names and equal flag pairs, so
repeated benchmarks with an identical configuration overwrite the same
record (determinism is definitional: the key is a pure function of the
configuration). -/
theorem c9_key_injective (ma mb : String) (wa ha wb hb : Bool)
    (heq : get_speed_test_key ma wa ha = get_speed_test_key mb wb hb) :
    ma = mb ∧ wa = wb ∧ ha = hb := by
  have hd := congrArg List.reverse (congrArg String.data heq)
  rw [get_speed_test_key_rev, get_speed_test_key_rev] at hd
  obtain ⟨hH, hrest⟩ := revColonSplit _ _ _ _ (noColonRev ha) (noColonRev hb) hd
  obtain ⟨hW, hM⟩ := revColonSplit _ _ _ _ (noColonRev wa) (noColonRev wb) hrest
  exact ⟨String.ext (List.reverse_inj.mp hM), pyBoolRevInj _ _ hW, pyBoolRevInj _ _ hH⟩

/-- Witness for `c9_key_injective` at a concrete configuration. -/
theorem c9_key_injective_witness : "medium" = "medium" ∧ true = true ∧ false = false :=
  c9_key_injective "medium" "medium" true false true false rfl

/-! ## Claim C4: feature flag resolution -/

/-- Claim C4 counterexample: with every capability available, requesting
highlighting but not word timestamps does NOT pass `--highlight_words` to
the tool — the highlight flag is only appended inside the word-timestamps
branch, so it is not independent of the word-timestamps flag. -/
theorem c4_counterexample :
    ¬ ("--highlight_words" ∈ whisperCmd "book" "01.mp3" false true ⟨true, true, true⟩) ∧
      (true && true) = true := by
  exact ⟨by decide, rfl⟩

/-- Claim C4 amended: the word-timestamps flag is passed iff it is
requested AND available (the logical AND of request and capability), but
the highlight flag is passed iff word timestamps are enabled AND
highlighting is requested AND available — the nesting in the source makes
highlighting dependent on the word-timestamps flag.  (The narration lines
of `whisper_stream` report highlighting from `hl && available` alone,
which can claim "enabled" while the flag is not passed.) -/
theorem c4_amended (book mp3 : String) (wt hl : Bool) (caps : Capabilities)
    (hwt : "--word_timestamps" ∉ whisperBase book mp3)
    (hhl : "--highlight_words" ∉ whisperBase book mp3) :
    (("--word_timestamps" ∈ whisperCmd book mp3 wt hl caps) ↔
        (wt && caps.word_timestamps_available) = true) ∧
      (("--highlight_words" ∈ whisperCmd book mp3 wt hl caps) ↔
        (wt && caps.word_timestamps_available && (hl && caps.highlight_words_available)) = true) := by
  cases h1 : wt && caps.word_timestamps_available with
  | false => constructor <;> simp [whisperCmd, h1, hwt, hhl]
  | true =>
    cases h2 : hl && caps.highlight_words_available with
    | false => constructor <;> simp [whisperCmd, h1, h2, hwt, hhl]
    | true => constructor <;> simp [whisperCmd, h1, h2, hwt, hhl]

/-- Witness for `c4_amended` at a concrete book, item and capability
set. -/
theorem c4_amended_witness :
    (("--word_timestamps" ∈ whisperCmd "book" "01.mp3" true false ⟨true, true, true⟩) ↔
        (true && true) = true) ∧
      (("--highlight_words" ∈ whisperCmd "book" "01.mp3" true false ⟨true, true, true⟩) ↔
        (true && true && (false && true)) = true) :=
  c4_amended "book" "01.mp3" true false ⟨true, true, true⟩ (by decide) (by decide)

/-! ## Claim C7: parallel scheduler tolerates per-item failure -/

lemma data_take_pre (p q : String) (n : Nat) (h : n ≤ p.data.length) :
    (p ++ q).data.take n = p.data.take n := by
  rw [String.data_append]
  exact List.take_append_of_le_length h

lemma len_append_le (p q : String) (n : Nat) (h : n ≤ p.data.length) :
    n ≤ (p ++ q).data.length := by
  rw [String.data_append, List.length_append]
  omega

lemma ne_of_data_take {a b : String} (n : Nat) (h : a.data.take n ≠ b.data.take n) : a ≠ b :=
  fun e => h (by rw [e])

lemma compBanner_take6 (m : String) :
    (compBanner m).data.take 6 = ['\n', '=', '=', '=', ' ', 'C'] := by
  have h0 : (6 : Nat) ≤ ("\n=== COMPLETED: " : String).data.length := by decide
  have h1 := len_append_le "\n=== COMPLETED: " m 6 h0
  unfold compBanner
  rw [data_take_pre _ _ _ h1, data_take_pre _ _ _ h0]
  decide

lemma errBanner_take6 (m : String) :
    (errBanner m).data.take 6 = ['\n', '=', '=', '=', ' ', 'E'] := by
  have h0 : (6 : Nat) ≤ ("\n=== ERROR: " : String).data.length := by decide
  have h1 := len_append_le "\n=== ERROR: " m 6 h0
  unfold errBanner
  rw [data_take_pre _ _ _ h1, data_take_pre _ _ _ h0]
  decide

lemma compBanner_take1 (m : String) : (compBanner m).data.take 1 = ['\n'] := by
  have h0 : (1 : Nat) ≤ ("\n=== COMPLETED: " : String).data.length := by decide
  have h1 := len_append_le "\n=== COMPLETED: " m 1 h0
  unfold compBanner
  rw [data_take_pre _ _ _ h1, data_take_pre _ _ _ h0]
  decide

lemma errBanner_take1 (m : String) : (errBanner m).data.take 1 = ['\n'] := by
  have h0 : (1 : Nat) ≤ ("\n=== ERROR: " : String).data.length := by decide
  have h1 := len_append_le "\n=== ERROR: " m 1 h0
  unfold errBanner
  rw [data_take_pre _ _ _ h1, data_take_pre _ _ _ h0]
  decide

lemma endBanner_take1 (m : String) : (endBanner m).data.take 1 = ['='] := by
  have h0 : (1 : Nat) ≤ ("=== END: " : String).data.length := by decide
  have h1 := len_append_le "=== END: " m 1 h0
  unfold endBanner
  rw [data_take_pre _ _ _ h1, data_take_pre _ _ _ h0]
  decide

lemma endErrBanner_take1 (m : String) : (endErrBanner m).data.take 1 = ['='] := by
  have h0 : (1 : Nat) ≤ ("=== END ERROR: " : String).data.length := by decide
  have h1 := len_append_le "=== END ERROR: " m 1 h0
  unfold endErrBanner
  rw [data_take_pre _ _ _ h1, data_take_pre _ _ _ h0]
  decide

lemma excText_take1 (msg : String) : (excText msg).data.take 1 = ['E'] := by
  have h0 : (1 : Nat) ≤ ("Exception: " : String).data.length := by decide
  have h1 := len_append_le "Exception: " msg 1 h0
  unfold excText
  rw [data_take_pre _ _ _ h1, data_take_pre _ _ _ h0]
  decide

lemma tagLine_take1 (mp3 line : String) : (tagLine mp3 line).data.take 1 = ['['] := by
  have h0 : (1 : Nat) ≤ ("[" : String).data.length := by decide
  have h1 := len_append_le "[" mp3 1 h0
  have h2 := len_append_le ("[" ++ mp3) "] " 1 h1
  unfold tagLine
  rw [data_take_pre _ _ _ h2, data_take_pre _ _ _ h1, data_take_pre _ _ _ h0]
  decide

lemma parallelHeader_take1 (nFiles maxWorkers : Nat) :
    (parallelHeader nFiles maxWorkers).data.take 1 = ['S'] := by
  have h0 : (1 : Nat) ≤ ("Starting parallel transcription of " : String).data.length := by decide
  have h1 := len_append_le "Starting parallel transcription of " (toString nFiles) 1 h0
  have h2 := len_append_le _ " files with " 1 h1
  have h3 := len_append_le _ (toString maxWorkers) 1 h2
  unfold parallelHeader
  rw [data_take_pre _ _ _ h3, data_take_pre _ _ _ h2, data_take_pre _ _ _ h1,
    data_take_pre _ _ _ h0]
  decide

lemma compBanner_inj {ma mb : String} (h : compBanner ma = compBanner mb) : ma = mb := by
  have h' := congrArg String.data h
  simp only [compBanner, String.data_append] at h'
  exact String.ext (List.append_cancel_left (List.append_cancel_right h'))

lemma errBanner_inj {ma mb : String} (h : errBanner ma = errBanner mb) : ma = mb := by
  have h' := congrArg String.data h
  simp only [errBanner, String.data_append] at h'
  exact String.ext (List.append_cancel_left (List.append_cancel_right h'))

/-- A line counts for item `m` when it is that item's completion banner
or error banner. -/
def isItemBanner (m l : String) : Bool := l == compBanner m || l == errBanner m

lemma isItemBanner_compBanner (m m' : String) :
    isItemBanner m (compBanner m') = decide (m' = m) := by
  by_cases hm : m' = m
  · subst hm; simp [isItemBanner]
  · have h1 : compBanner m' ≠ compBanner m := fun e => hm (compBanner_inj e)
    have h2 : compBanner m' ≠ errBanner m :=
      ne_of_data_take 6 (by rw [compBanner_take6, errBanner_take6]; decide)
    simp [isItemBanner, h1, h2, hm]

lemma isItemBanner_errBanner (m m' : String) :
    isItemBanner m (errBanner m') = decide (m' = m) := by
  by_cases hm : m' = m
  · simp [isItemBanner, hm]
  · have h1 : errBanner m' ≠ compBanner m :=
      ne_of_data_take 6 (by rw [compBanner_take6, errBanner_take6]; decide)
    have h2 : errBanner m' ≠ errBanner m := fun e => hm (errBanner_inj e)
    simp [isItemBanner, h1, h2, hm]

lemma isItemBanner_false_of_take1 (m l : String) (h : l.data.take 1 ≠ ['\n']) :
    isItemBanner m l = false := by
  have h1 : l ≠ compBanner m := ne_of_data_take 1 (by rw [compBanner_take1]; exact h)
  have h2 : l ≠ errBanner m := ne_of_data_take 1 (by rw [errBanner_take1]; exact h)
  simp [isItemBanner, h1, h2]

lemma countP_tagged (m m' : String) (ls : List String) :
    List.countP (isItemBanner m) (ls.map (tagLine m')) = 0 := by
  induction ls with
  | nil => rfl
  | cons a ls ih =>
    have := isItemBanner_false_of_take1 m (tagLine m' a) (by rw [tagLine_take1]; decide)
    simp [List.countP_cons, this, ih]

lemma countP_parallelBlock (book m' m : String) (envOf : String → StreamEnv)
    (raisesOf : String → Option String) :
    List.countP (isItemBanner m) (parallelBlock book m' envOf raisesOf) =
      if m' = m then 1 else 0 := by
  unfold parallelBlock
  cases raisesOf m' with
  | some msg =>
    have he := isItemBanner_false_of_take1 m (excText msg) (by rw [excText_take1]; decide)
    have hee := isItemBanner_false_of_take1 m (endErrBanner m') (by rw [endErrBanner_take1]; decide)
    simp [List.countP_cons, isItemBanner_errBanner, he, hee]
  | none =>
    have heb := isItemBanner_false_of_take1 m (endBanner m') (by rw [endBanner_take1]; decide)
    unfold transcribe_single
    simp only [List.countP_cons, List.countP_append, isItemBanner_compBanner, heb, countP_tagged]
    by_cases hm : m' = m <;> simp [hm]

lemma sum_map_ite_count (m : String) (order : List String) :
    (order.map (fun m' => if m' = m then 1 else 0)).sum = order.count m := by
  induction order with
  | nil => rfl
  | cons a l ih =>
    rw [List.map_cons, List.sum_cons, List.count_cons, ih]
    by_cases h : a = m <;> simp [h, Nat.add_comm]

/-- Claim C7: the parallel scheduler emits, for every item of the batch,
exactly one banner — a completion banner when its worker returned, an
error banner when its worker raised — regardless of how many other items
raised and regardless of the completion order; so every item of the batch
appears exactly once in the output (`count` in the batch handles repeated
item names), and one item's failure never suppresses another item's
block. -/
theorem c7_parallel_partial_failure (book : String) (files : List String) (maxWorkers : Nat)
    (envOf : String → StreamEnv) (raisesOf : String → Option String)
    (order : List String) (m : String) (hperm : order.Perm files) :
    List.countP (isItemBanner m)
        (whisper_stream_parallel book files maxWorkers envOf raisesOf order) =
      files.count m := by
  unfold whisper_stream_parallel
  have hh := isItemBanner_false_of_take1 m (parallelHeader files.length maxWorkers)
    (by rw [parallelHeader_take1]; decide)
  rw [List.countP_cons, List.countP_flatten, List.map_map, hh]
  simp only [Function.comp_def, countP_parallelBlock]
  rw [sum_map_ite_count]
  simpa using hperm.count_eq m

/-- Witness for `c7_parallel_partial_failure`: a three-item batch where
`C.mp3` raises and finishes second; its error banner appears exactly
once. -/
theorem c7_parallel_partial_failure_witness :
    List.countP (isItemBanner "C.mp3")
        (whisper_stream_parallel "bk" ["A.mp3", "B.mp3", "C.mp3"] 2
          (fun _ =>
            { mp3Exists := true
              caps := ⟨true, true, true⟩
              behavior := .runs ["one", "", "two"] 0
              procHandle := 3
              vttExists := true
              hasWords := true })
          (fun mp3 => if mp3 = "C.mp3" then some "worker crashed" else none)
          ["A.mp3", "C.mp3", "B.mp3"]) =
      ["A.mp3", "B.mp3", "C.mp3"].count "C.mp3" :=
  c7_parallel_partial_failure "bk" ["A.mp3", "B.mp3", "C.mp3"] 2 _ _
    ["A.mp3", "C.mp3", "B.mp3"] "C.mp3" (by decide)

/-! ## Claim C10: the parallel path ignores the request's feature flags -/

/-- A fully capable environment with a successful one-line tool run, used
to exhibit observable flag-dependence of a single stream. -/
def envAllCaps : StreamEnv where
  mp3Exists := true
  caps := ⟨true, true, true⟩
  behavior := .runs ["hello world"] 0
  procHandle := 1
  vttExists := true
  hasWords := true

/-- Claim C10: in the parallel multi-file branch the caller's feature
flags are not forwarded — the output is identical whatever flags the
request carried, because `transcribe_single` drains `whisper_stream` with
its defaults (both flags `True`).  The flags are observable: a single
stream genuinely differs between flags `(false, true)` and `(true, true)`
under full capabilities, and the sequential batch branch, which does
forward them, differs accordingly. -/
theorem c10_parallel_ignores_flags (book : String) (files : List String) (maxWorkers : Nat)
    (wt hl : Bool) (envOf : String → StreamEnv) (raisesOf : String → Option String)
    (order : List String) (hlen : 1 < files.length) :
    genAllOut book files true maxWorkers wt hl envOf raisesOf order =
        genAllOut book files true maxWorkers true true envOf raisesOf order ∧
      whisperStreamOut "bk" "a.mp3" false true envAllCaps ≠
        whisperStreamOut "bk" "a.mp3" true true envAllCaps ∧
      genAllOut "bk" ["a.mp3", "b.mp3"] false 2 false true (fun _ => envAllCaps)
          (fun _ => none) ["a.mp3", "b.mp3"] ≠
        genAllOut "bk" ["a.mp3", "b.mp3"] false 2 true true (fun _ => envAllCaps)
          (fun _ => none) ["a.mp3", "b.mp3"] := by
  refine ⟨?_, by decide, by decide⟩
  have hne : files.isEmpty = false := by
    cases files with
    | nil => simp at hlen
    | cons a l => rfl
  have hgt : decide (1 < files.length) = true := decide_eq_true hlen
  unfold genAllOut
  rw [hne, hgt]
  rfl

/-- Witness for `c10_parallel_ignores_flags` on a concrete two-file
batch. -/
theorem c10_parallel_ignores_flags_witness :
    genAllOut "bk" ["x.mp3", "y.mp3"] true 2 false false (fun _ => envAllCaps)
          (fun _ => none) ["y.mp3", "x.mp3"] =
        genAllOut "bk" ["x.mp3", "y.mp3"] true 2 true true (fun _ => envAllCaps)
          (fun _ => none) ["y.mp3", "x.mp3"] ∧
      whisperStreamOut "bk" "a.mp3" false true envAllCaps ≠
        whisperStreamOut "bk" "a.mp3" true true envAllCaps ∧
      genAllOut "bk" ["a.mp3", "b.mp3"] false 2 false true (fun _ => envAllCaps)
          (fun _ => none) ["a.mp3", "b.mp3"] ≠
        genAllOut "bk" ["a.mp3", "b.mp3"] false 2 true true (fun _ => envAllCaps)
          (fun _ => none) ["a.mp3", "b.mp3"] :=
  c10_parallel_ignores_flags "bk" ["x.mp3", "y.mp3"] 2 false false (fun _ => envAllCaps)
    (fun _ => none) ["y.mp3", "x.mp3"] (by decide)

/-- A concrete speed record for the store witness. -/
def recA : SpeedRecord := ⟨2, "medium", true, true, 10, 5, "2026-01-01T00:00:00Z"⟩

/-- A second concrete speed record for the store witness. -/
def recB : SpeedRecord := ⟨3, "medium", true, true, 15, 5, "2026-01-02T00:00:00Z"⟩

/-- Witness for `c6_store`: last-write-wins at a concrete key and
preservation of a distinct key. -/
theorem c6_store_witness :
    get_speed_ratio_route "medium:True:True"
        (save_speed_ratio_data "medium:True:True" recB
          (save_speed_ratio_data "medium:True:True" recA (fun _ => none))) = some recB ∧
      get_speed_ratio_route "small:True:True"
        (save_speed_ratio_data "medium:True:True" recB (fun _ => none)) =
        get_speed_ratio_route "small:True:True" (fun _ => none) :=
  ⟨(c6_store "medium:True:True" recA recB (fun _ => none)).1,
   (c6_store "medium:True:True" recA recB (fun _ => none)).2.2 "small:True:True" (by decide)⟩
